import Mathlib

/-!
Verification development for the AgentCompany desktop supervisor
(`src-tauri/src/main.rs`): a single-slot process supervisor
(`start_manager_web`, `stop_manager_web`, `manager_web_status`), an
executable resolver (`resolve_node_bin`, `resolve_cli_path`,
`discover_cli_candidates`, `push_candidates`), command builders for the
three CLI invocation modes, and the one-shot handler `onboard_agent`.

Modelling conventions:
* Rust `String`/`&str` values are Lean `String`s.  Core Lean's
  `String.trim` and `String.toLower` are not kernel-reducible, so Rust's
  `str::trim` and `str::to_lowercase` are modelled explicitly over the
  underlying character list (`trimS`, `lowerS`); child stdout/stderr are
  modelled as already-decoded UTF-8 text.
* Filesystem paths are modelled by `FsPath` (root flag plus components);
  `PathBuf::from` of a caller-supplied raw string keeps the raw string,
  so the explicit/env branches of the resolver work on plain strings.
* OS effects (polling a child, killing it, waiting, spawning, reading
  environment variables, testing file existence, running a one-shot
  child) are supplied by explicit oracle records (`TermEnv`, `SpawnEnv`,
  `ResolveEnv`, run functions); each handler is a pure function of its
  arguments, the supervisor slot and the oracles, returning its result,
  the new slot and the trace of process events it performed.
-/

namespace AgentCompany

/-- Model of Rust `str::trim`: drop leading and trailing whitespace. -/
def trimS (s : String) : String :=
  ⟨((s.data.dropWhile Char.isWhitespace).reverse.dropWhile Char.isWhitespace).reverse⟩

/-- Model of Rust `str::to_lowercase` (ASCII fragment, as exercised here). -/
def lowerS (s : String) : String :=
  ⟨s.data.map Char.toLower⟩

/-- `StartManagerWebArgs` from main.rs (camelCase request for StartWorker).
`port` is a `u16` in the source; modelled as `Nat`. -/
structure StartManagerWebArgs where
  workspace_dir : String
  project_id : String
  actor_id : Option String
  actor_role : Option String
  actor_team_id : Option String
  host : Option String
  port : Option Nat
  monitor_limit : Option Nat
  pending_limit : Option Nat
  decisions_limit : Option Nat
  refresh_index : Option Bool
  sync_index : Option Bool
  node_bin : Option String
  cli_path : Option String
deriving Repr, DecidableEq

/-- `BootstrapWorkspaceArgs` from main.rs. -/
structure BootstrapWorkspaceArgs where
  workspace_dir : String
  company_name : Option String
  project_name : Option String
  departments : Option (List String)
  include_ceo : Option Bool
  include_director : Option Bool
  force : Option Bool
  node_bin : Option String
  cli_path : Option String
deriving Repr, DecidableEq

/-- `OnboardAgentArgs` from main.rs. -/
structure OnboardAgentArgs where
  workspace_dir : String
  name : String
  role : String
  provider : String
  team_id : Option String
  team_name : Option String
  node_bin : Option String
  cli_path : Option String
deriving Repr, DecidableEq

/-- `ManagerWebStatus` from main.rs. -/
structure ManagerWebStatus where
  running : Bool
  url : Option String
  pid : Option Nat
  workspace_dir : Option String
  project_id : Option String
deriving Repr, DecidableEq

/-- `ManagedProcess` from main.rs: the `Child` handle is modelled by the
OS process id it reports via `child.id()`; its liveness is observed
through oracles. -/
structure ManagedProcess where
  child : Nat
  url : String
  workspace_dir : String
  project_id : String
deriving Repr, DecidableEq

/-- `ManagerWebStatus::idle` from main.rs. -/
def ManagerWebStatus.idle : ManagerWebStatus :=
  { running := false, url := none, pid := none, workspace_dir := none, project_id := none }

/-- `status_from_managed` from main.rs. -/
def status_from_managed (p : ManagedProcess) : ManagerWebStatus :=
  { running := true
    url := some p.url
    pid := some p.child
    workspace_dir := some p.workspace_dir
    project_id := some p.project_id }

/-- `valid_actor_role` from main.rs. -/
def valid_actor_role (role : String) : Bool :=
  role = "human" || role = "ceo" || role = "director" || role = "manager" || role = "worker"

/-- `valid_agent_role` from main.rs. -/
def valid_agent_role (role : String) : Bool :=
  role = "ceo" || role = "director" || role = "manager" || role = "worker"

/-- `parse_cli_text_output` from main.rs, over already-decoded UTF-8 text. -/
def parse_cli_text_output (stdout : String) : Except String String :=
  let trimmed := trimS stdout
  if trimmed = "" then Except.error "CLI returned empty output"
  else Except.ok trimmed

/-- A filesystem path: whether it is rooted, and its components.
`Path::parent` drops the last component; `Path::ancestors` yields the
path and all its parents. -/
structure FsPath where
  root : Bool
  comps : List String
deriving Repr, DecidableEq

/-- Rendering of an `FsPath` (the `display` form used in spawn arguments). -/
def FsPath.render (p : FsPath) : String :=
  (if p.root then "/" else "") ++ String.intercalate "/" p.comps

/-- `Path::ancestors` on `FsPath`: the path itself, then each parent
obtained by dropping the last component, down to the empty path.
Dropping trailing components is taking suffix-tails of the reversed
component list. -/
def FsPath.ancestors (p : FsPath) : List FsPath :=
  p.comps.reverse.tails.map (fun t => ⟨p.root, t.reverse⟩)

/-- `ancestor.join("dist").join("cli.js")` from `push_candidates`. -/
def joinDistCli (p : FsPath) : FsPath :=
  ⟨p.root, p.comps ++ ["dist", "cli.js"]⟩

/-- One iteration of the `push_candidates` loop body: skip a candidate
already in `seen`, otherwise append it to `out` and record it in `seen`
(mirrors `HashSet::insert` returning whether the value was new). -/
def dedupStep (acc : List FsPath × List FsPath) (cand : FsPath) :
    List FsPath × List FsPath :=
  if cand ∈ acc.2 then acc else (acc.1 ++ [cand], cand :: acc.2)

/-- `push_candidates` from main.rs: for each of the first 8 ancestors of
`base`, push the ancestor's `dist/cli.js` candidate unless already seen. -/
def push_candidates (base : FsPath) (out seen : List FsPath) :
    List FsPath × List FsPath :=
  ((base.ancestors.take 8).map joinDistCli).foldl dedupStep (out, seen)

/-- Environment/filesystem oracle for the resolver: the two override
environment variables, the current directory, the parent directory of
the current executable (`current_exe().parent()`), and file existence.
`isFile` answers `Path::is_file` for a rendered path. -/
structure ResolveEnv where
  envNodeBin : Option String
  envCliPath : Option String
  cwd : Option FsPath
  exeDir : Option FsPath
  isFile : String → Bool

/-- `resolve_node_bin` from main.rs. -/
def resolve_node_bin (explicit : Option String) (env : ResolveEnv) : String :=
  match explicit with
  | some bin =>
    let trimmed := trimS bin
    if trimmed ≠ "" then trimmed else resolveNodeBinEnv env
  | none => resolveNodeBinEnv env
where
  resolveNodeBinEnv (env : ResolveEnv) : String :=
    match env.envNodeBin with
    | some bin =>
      let trimmed := trimS bin
      if trimmed ≠ "" then trimmed else "node"
    | none => "node"

/-- `discover_cli_candidates` from main.rs. -/
def discover_cli_candidates (env : ResolveEnv) : List FsPath :=
  let acc : List FsPath × List FsPath := ([], [])
  let acc :=
    match env.cwd with
    | some cwd => push_candidates cwd acc.1 acc.2
    | none => acc
  let acc :=
    match env.exeDir with
    | some dir => push_candidates dir acc.1 acc.2
    | none => acc
  acc.1

/-- `resolve_cli_path` from main.rs.  The explicit and environment
branches keep the raw (trimmed) string, as `PathBuf::from` does. -/
def resolve_cli_path (explicit : Option String) (env : ResolveEnv) :
    Except String String :=
  match explicit with
  | some raw =>
    let p := trimS raw
    if env.isFile p then Except.ok p
    else Except.error ("CLI path does not exist: " ++ p)
  | none =>
    match env.envCliPath with
    | some raw =>
      let p := trimS raw
      if env.isFile p then Except.ok p
      else Except.error ("AGENTCOMPANY_CLI_PATH is set but does not exist: " ++ p)
    | none =>
      match (discover_cli_candidates env).find? (fun c => env.isFile c.render) with
      | some c => Except.ok c.render
      | none =>
        Except.error
          "Unable to find dist/cli.js. Run `pnpm build` and/or set AGENTCOMPANY_CLI_PATH to the absolute dist/cli.js path."

/-- Outcome of `Child::try_wait`: the child has exited, is still
running, or the poll itself failed. -/
inductive TryWaitR where
  | exited
  | running
  | errw (msg : String)
deriving Repr, DecidableEq

/-- Outcome of `Child::kill`: success, or an `io::Error` with its kind
(`invalidInput` answers `e.kind() == ErrorKind::InvalidInput`) and text. -/
inductive KillR where
  | ok
  | err (invalidInput : Bool) (msg : String)
deriving Repr, DecidableEq

/-- Oracle for one `terminate_child` run on a given child: what
`try_wait`, `kill` and `wait` would return. -/
structure TermEnv where
  tryWait : TryWaitR
  kill : KillR
  wait : Except String Unit

/-- `terminate_child` from main.rs. -/
def terminate_child (env : TermEnv) : Except String Unit :=
  match env.tryWait with
  | TryWaitR.exited => Except.ok ()
  | _ =>
    match env.kill with
    | KillR.ok => terminateWait env
    | KillR.err invalidInput m =>
      if invalidInput then terminateWait env
      else Except.error ("Failed to stop Manager Web process: " ++ m)
where
  terminateWait (env : TermEnv) : Except String Unit :=
    match env.wait with
    | Except.ok _ => Except.ok ()
    | Except.error e =>
      Except.error ("Failed waiting for Manager Web process to exit: " ++ e)

/-- `manager_web_status` from main.rs: result and new slot contents.
`poll` is what `try_wait` on the recorded child would return. -/
def manager_web_status (st : Option ManagedProcess) (poll : TryWaitR) :
    Except String ManagerWebStatus × Option ManagedProcess :=
  match st with
  | none => (Except.ok ManagerWebStatus.idle, none)
  | some existing =>
    match poll with
    | TryWaitR.exited => (Except.ok ManagerWebStatus.idle, none)
    | TryWaitR.running => (Except.ok (status_from_managed existing), some existing)
    | TryWaitR.errw e =>
      (Except.error ("Failed to check Manager Web process status: " ++ e), some existing)

/-- `stop_manager_web` from main.rs: the slot is `take`n before
termination is attempted, so the new slot is empty on every path. -/
def stop_manager_web (st : Option ManagedProcess) (term : TermEnv) :
    Except String ManagerWebStatus × Option ManagedProcess :=
  match st with
  | none => (Except.ok ManagerWebStatus.idle, none)
  | some _ =>
    match terminate_child term with
    | Except.ok _ => (Except.ok ManagerWebStatus.idle, none)
    | Except.error e => (Except.error e, none)

/-- Normalized `actor_id` in `start_manager_web`. -/
def startActorId (a : StartManagerWebArgs) : String :=
  trimS (a.actor_id.getD "human")

/-- Normalized `actor_role` in `start_manager_web` (trimmed, not
lower-cased). -/
def startActorRole (a : StartManagerWebArgs) : String :=
  trimS (a.actor_role.getD "manager")

/-- Normalized `host` in `start_manager_web`. -/
def startHost (a : StartManagerWebArgs) : String :=
  trimS (a.host.getD "127.0.0.1")

/-- Normalized `port` in `start_manager_web`. -/
def startPort (a : StartManagerWebArgs) : Nat :=
  a.port.getD 8787

/-- The argument vector built by `start_manager_web` (everything handed
to `Command` after the program name `node_bin`): entrypoint, `ui:web`
subcommand, positional workspace, the fixed flags, then the optional
`--team`, `--refresh-index` and `--no-sync-index` suffixes. -/
def start_command_args (cli : String) (a : StartManagerWebArgs) : List String :=
  [cli, "ui:web", trimS a.workspace_dir,
   "--project", trimS a.project_id,
   "--actor", startActorId a,
   "--role", startActorRole a,
   "--host", startHost a,
   "--port", toString (startPort a),
   "--monitor-limit", toString (a.monitor_limit.getD 200),
   "--pending-limit", toString (a.pending_limit.getD 200),
   "--decisions-limit", toString (a.decisions_limit.getD 200)]
  ++ (match a.actor_team_id with
      | some team => if trimS team ≠ "" then ["--team", trimS team] else []
      | none => [])
  ++ (if a.refresh_index.getD false then ["--refresh-index"] else [])
  ++ (if a.sync_index = some false then ["--no-sync-index"] else [])

/-- Observable process events performed by a supervisor operation, in
order: a recorded child confirmed terminated, a new child spawned with
its argument vector. -/
inductive Event where
  | terminated (pid : Nat)
  | spawned (pid : Nat) (argv : List String)
deriving Repr, DecidableEq

/-- Oracle for one `start_manager_web` run: what polling the currently
recorded child returns, the `terminate_child` oracle for it, and the
spawn outcome (new child pid, or an `io::Error` text). -/
structure SpawnEnv where
  tryWait : TryWaitR
  term : TermEnv
  spawn : Except String Nat

/-- `start_manager_web` from main.rs: result, new slot contents, and
the trace of process events performed. -/
def start_manager_web (st : Option ManagedProcess) (a : StartManagerWebArgs)
    (renv : ResolveEnv) (env : SpawnEnv) :
    Except String ManagerWebStatus × Option ManagedProcess × List Event :=
  let workspace_dir := trimS a.workspace_dir
  let project_id := trimS a.project_id
  if workspace_dir = "" then (Except.error "workspace_dir is required", st, [])
  else if project_id = "" then (Except.error "project_id is required", st, [])
  else if startActorId a = "" then (Except.error "actor_id cannot be empty", st, [])
  else if ¬ valid_actor_role (startActorRole a) then
    (Except.error "actor_role must be one of: human, ceo, director, manager, worker", st, [])
  else if startHost a = "" then (Except.error "host cannot be empty", st, [])
  else if startPort a = 0 then (Except.error "port must be between 1 and 65535", st, [])
  else
    match resolve_cli_path a.cli_path renv with
    | Except.error e => (Except.error e, st, [])
    | Except.ok cli =>
      let argv := start_command_args cli a
      match st with
      | some existing =>
        match env.tryWait with
        | TryWaitR.running =>
          let same_target :=
            existing.workspace_dir = workspace_dir ∧ existing.project_id = project_id
          if same_target then (Except.ok (status_from_managed existing), some existing, [])
          else
            match terminate_child env.term with
            | Except.error e => (Except.error e, some existing, [])
            | Except.ok _ =>
              startSpawn a env argv (Event.terminated existing.child :: [])
        | TryWaitR.exited => startSpawn a env argv []
        | TryWaitR.errw e =>
          (Except.error ("Failed to inspect existing Manager Web process: " ++ e),
           some existing, [])
      | none => startSpawn a env argv []
where
  /-- The tail of Start after the slot has been emptied: spawn, build the
  reported URL, record the new `ManagedProcess`. -/
  startSpawn (a : StartManagerWebArgs) (env : SpawnEnv) (argv : List String)
      (trace : List Event) :
      Except String ManagerWebStatus × Option ManagedProcess × List Event :=
    match env.spawn with
    | Except.error e =>
      (Except.error ("Failed to start Manager Web process: " ++ e), none, trace)
    | Except.ok pid =>
      let url := "http://" ++ startHost a ++ ":" ++ toString (startPort a)
      let managed : ManagedProcess :=
        { child := pid
          url := url
          workspace_dir := trimS a.workspace_dir
          project_id := trimS a.project_id }
      (Except.ok (status_from_managed managed), some managed,
       trace ++ [Event.spawned pid argv])

/-- Department normalization in `bootstrap_workspace`: default to the
empty list, trim each entry, drop entries that are empty after
trimming. -/
def normalize_departments (departments : Option (List String)) : List String :=
  ((departments.getD []).map trimS).filter (fun d => ¬ d = "")

/-- Optional-string flag emission shared by `bootstrap_workspace`
fields: emit `flag value` only when the field is present and non-empty
after trimming. -/
def optStringFlag (flag : String) (field : Option String) : List String :=
  match field with
  | some raw => if trimS raw ≠ "" then [flag, trimS raw] else []
  | none => []

/-- The argument vector built by `bootstrap_workspace` (everything
handed to `Command` after the program name). -/
def bootstrap_command_args (cli : String) (a : BootstrapWorkspaceArgs) : List String :=
  [cli, "workspace:bootstrap", trimS a.workspace_dir]
  ++ optStringFlag "--name" a.company_name
  ++ optStringFlag "--project-name" a.project_name
  ++ (let nd := normalize_departments a.departments
      if nd = [] then [] else "--departments" :: nd)
  ++ (if a.include_ceo = some false then ["--no-ceo"] else [])
  ++ (if a.include_director = some false then ["--no-director"] else [])
  ++ (if a.force.getD false then ["--force"] else [])

/-- A one-shot child invocation: program (the resolved node binary) and
argument vector. -/
structure Invocation where
  prog : String
  args : List String
deriving Repr, DecidableEq

/-- Captured outcome of a synchronous one-shot invocation: whether the
exit status was success, and the captured output streams as decoded
text. -/
structure RunResult where
  success : Bool
  stdout : String
  stderr : String

/-- The `detail` picked for a nonzero-exit error: trimmed stderr if
non-empty, else trimmed stdout. -/
def failDetail (r : RunResult) : String :=
  if trimS r.stderr ≠ "" then trimS r.stderr else trimS r.stdout

/-- The JSON object `onboard_agent` returns on success, as a structure. -/
structure OnboardResult where
  workspace_dir : String
  agent_id : String
  name : String
  role : String
  provider : String
  team_id : Option String
  created_team : Bool
deriving Repr, DecidableEq

/-- Normalized `team_id` in `onboard_agent`: trimmed, and dropped when
empty after trimming. -/
def onboardTeamId (a : OnboardAgentArgs) : Option String :=
  match a.team_id with
  | some v => if trimS v = "" then none else some (trimS v)
  | none => none

/-- `onboard_agent` from main.rs: the result and the ordered trace of
one-shot invocations issued (`team:new` first when taken, then
`agent:new`).  `run` is the oracle giving each invocation's outcome. -/
def onboard_agent (a : OnboardAgentArgs) (renv : ResolveEnv)
    (run : Invocation → RunResult) :
    Except String OnboardResult × List Invocation :=
  let workspace_dir := trimS a.workspace_dir
  let name := trimS a.name
  let role := lowerS (trimS a.role)
  let provider := trimS a.provider
  if workspace_dir = "" then (Except.error "workspace_dir is required", [])
  else if name = "" then (Except.error "name is required", [])
  else if ¬ valid_agent_role role then
    (Except.error "role must be one of: ceo, director, manager, worker", [])
  else if provider = "" then (Except.error "provider is required", [])
  else
    let node_bin := resolve_node_bin a.node_bin renv
    match resolve_cli_path a.cli_path renv with
    | Except.error e => (Except.error e, [])
    | Except.ok cli =>
      let teamStep :
          Except String (Option String × Bool) × List Invocation :=
        if role ≠ "ceo" ∧ onboardTeamId a = none then
          match a.team_name with
          | some team_name_raw =>
            let team_name := trimS team_name_raw
            if team_name ≠ "" then
              let inv : Invocation :=
                ⟨node_bin, [cli, "team:new", workspace_dir, "--name", team_name]⟩
              let out := run inv
              if ¬ out.success then
                (Except.error ("Team onboarding failed: " ++ failDetail out), [inv])
              else
                match parse_cli_text_output out.stdout with
                | Except.error e => (Except.error e, [inv])
                | Except.ok minted => (Except.ok (some minted, true), [inv])
            else (Except.ok (onboardTeamId a, false), [])
          | none => (Except.ok (onboardTeamId a, false), [])
        else (Except.ok (onboardTeamId a, false), [])
      match teamStep with
      | (Except.error e, trace0) => (Except.error e, trace0)
      | (Except.ok (team_id, created_team), trace0) =>
        let agentInv : Invocation :=
          ⟨node_bin,
           [cli, "agent:new", workspace_dir, "--name", name, "--role", role,
            "--provider", provider]
           ++ (match team_id with
               | some team => ["--team", team]
               | none => [])⟩
        let out := run agentInv
        let trace := trace0 ++ [agentInv]
        if ¬ out.success then
          (Except.error ("Agent onboarding failed: " ++ failDetail out), trace)
        else
          match parse_cli_text_output out.stdout with
          | Except.error e => (Except.error e, trace)
          | Except.ok agent_id =>
            (Except.ok
              { workspace_dir := workspace_dir
                agent_id := agent_id
                name := name
                role := role
                provider := provider
                team_id := team_id
                created_team := created_team }, trace)

/-! ## Helper lemmas -/

/-- For digits below the base, `Nat.digitChar` yields a digit character. -/
lemma digitChar_isDigit (m : Nat) (h : m < 10) : (Nat.digitChar m).isDigit = true := by
  interval_cases m <;> decide

/-- Every character accumulated by `Nat.toDigitsCore` in base 10 is a digit. -/
lemma toDigitsCore_all_digits (f : Nat) :
    ∀ (n : Nat) (acc : List Char), (∀ c ∈ acc, c.isDigit = true) →
      ∀ c ∈ Nat.toDigitsCore 10 f n acc, c.isDigit = true := by
  induction f with
  | zero =>
    intro n acc hacc c hc
    simpa [Nat.toDigitsCore] using hacc c hc
  | succ f ih =>
    intro n acc hacc c hc
    have hmod : n % 10 < 10 := Nat.mod_lt _ (by decide)
    have hd := digitChar_isDigit (n % 10) hmod
    have hcons : ∀ x ∈ Nat.digitChar (n % 10) :: acc, x.isDigit = true := by
      intro x hx
      rcases List.mem_cons.mp hx with hx | hx
      · exact hx ▸ hd
      · exact hacc x hx
    simp only [Nat.toDigitsCore] at hc
    by_cases h10 : n / 10 = 0
    · rw [if_pos h10] at hc
      exact hcons c hc
    · rw [if_neg h10] at hc
      exact ih (n / 10) (Nat.digitChar (n % 10) :: acc) hcons c hc

/-- Every character of the decimal representation of a natural is a digit. -/
lemma natRepr_all_digits (n : Nat) : ∀ c ∈ (Nat.repr n).data, c.isDigit = true := by
  intro c hc
  have : c ∈ Nat.toDigitsCore 10 (n + 1) n [] := hc
  exact toDigitsCore_all_digits (n + 1) n [] (by intro x hx; cases hx) c this

/-- The decimal rendering of a natural never equals a string containing
a dash (such as a `--flag` token). -/
lemma natToString_ne_of_dash (n : Nat) (s : String) (h : '-' ∈ s.data) :
    toString n ≠ s := by
  intro he
  have hrepr : toString n = Nat.repr n := rfl
  have hmem : '-' ∈ (Nat.repr n).data := by rw [← hrepr, he]; exact h
  have := natRepr_all_digits n '-' hmem
  simp at this

/-! ## C6: Stop idempotence and unconditional slot clearing -/

/-- C6: Stop is idempotent and clears the slot unconditionally: the new
slot is empty on every path; stopping with no recorded process returns
idle without error; a second Stop after any Stop returns idle without
error; and when the recorded process's termination fails, Stop surfaces
that error with the slot nonetheless cleared. -/
theorem c6_stop_idempotent_clears_slot
    (st : Option ManagedProcess) (term term2 : TermEnv) (p : ManagedProcess)
    (e : String) :
    (stop_manager_web st term).2 = none
    ∧ stop_manager_web none term = (Except.ok ManagerWebStatus.idle, none)
    ∧ stop_manager_web (stop_manager_web st term).2 term2
        = (Except.ok ManagerWebStatus.idle, none)
    ∧ (terminate_child term = Except.error e →
        stop_manager_web (some p) term = (Except.error e, none)) := by
  refine ⟨?_, rfl, ?_, ?_⟩
  · cases st with
    | none => rfl
    | some q =>
      simp only [stop_manager_web]
      cases terminate_child term <;> rfl
  · have h2 : (stop_manager_web st term).2 = none := by
      cases st with
      | none => rfl
      | some q =>
        simp only [stop_manager_web]
        cases terminate_child term <;> rfl
    rw [h2]
    rfl
  · intro hterm
    simp only [stop_manager_web, hterm]

/-- Witness for C6 at a concrete slot and failing termination oracle. -/
theorem c6_witness :
    stop_manager_web (some ⟨7, "http://127.0.0.1:8787", "/ws", "p1"⟩)
        ⟨TryWaitR.running, KillR.err false "boom", Except.ok ()⟩
      = (Except.error "Failed to stop Manager Web process: boom", none) :=
  (c6_stop_idempotent_clears_slot (some ⟨7, "http://127.0.0.1:8787", "/ws", "p1"⟩)
      ⟨TryWaitR.running, KillR.err false "boom", Except.ok ()⟩
      ⟨TryWaitR.running, KillR.err false "boom", Except.ok ()⟩
      ⟨7, "http://127.0.0.1:8787", "/ws", "p1"⟩
      "Failed to stop Manager Web process: boom").2.2.2 rfl

/-! ## C7: Status polling semantics -/

/-- C7: Status with an empty slot returns idle; with a recorded process
that has exited it clears the slot and returns idle, and a second Status
call after that again returns idle without error; with a live recorded
process it returns a running status carrying the reported URL, process
id and target key, leaving the slot unchanged. -/
theorem c7_status_poll (p : ManagedProcess) (poll : TryWaitR) :
    manager_web_status none poll = (Except.ok ManagerWebStatus.idle, none)
    ∧ manager_web_status (some p) TryWaitR.exited
        = (Except.ok ManagerWebStatus.idle, none)
    ∧ manager_web_status (manager_web_status (some p) TryWaitR.exited).2 poll
        = (Except.ok ManagerWebStatus.idle, none)
    ∧ manager_web_status (some p) TryWaitR.running
        = (Except.ok (status_from_managed p), some p)
    ∧ status_from_managed p
        = { running := true, url := some p.url, pid := some p.child,
            workspace_dir := some p.workspace_dir, project_id := some p.project_id } :=
  ⟨rfl, rfl, rfl, rfl, rfl⟩

/-! ## C1/C2: Start idempotence and single-slot handover -/

/-- Fixture: a resolver environment in which exactly `/cli.js` exists. -/
def envCliJs : ResolveEnv := ⟨none, none, none, none, fun s => s = "/cli.js"⟩

/-- Fixture: a running worker for target `(/ws, p1)`. -/
def procWs1 : ManagedProcess := ⟨42, "http://127.0.0.1:8787", "/ws", "p1"⟩

/-- Fixture: a start request for target `(/ws, p1)` with non-default
host, port and limits. -/
def argsWs1 : StartManagerWebArgs :=
  ⟨"/ws", "p1", none, none, none, some "0.0.0.0", some 9999, some 7, none, none,
   none, none, none, some "/cli.js"⟩

/-- Fixture: a start request for the different target `(/ws, p2)`. -/
def argsWs2 : StartManagerWebArgs :=
  ⟨"/ws", "p2", none, none, none, none, none, none, none, none,
   none, none, none, some "/cli.js"⟩

/-- Fixture: a spawn oracle where the recorded child is alive, its
termination succeeds, and spawning yields pid 43. -/
def spawnOk : SpawnEnv :=
  ⟨TryWaitR.running, ⟨TryWaitR.running, KillR.ok, Except.ok ()⟩, Except.ok 43⟩

/-- C1: a valid Start for the same `(workspaceDir, projectId)` target as
the live recorded worker is a no-op: it returns the existing worker's
status unchanged, leaves the slot unchanged, and performs no process
event (in particular no spawn), regardless of the request's host, port
and limit parameters, which are unconstrained here. -/
theorem c1_start_same_target_noop
    (st : Option ManagedProcess) (a : StartManagerWebArgs) (renv : ResolveEnv)
    (env : SpawnEnv) (p : ManagedProcess) (cli : String)
    (hst : st = some p)
    (halive : env.tryWait = TryWaitR.running)
    (hwd : p.workspace_dir = trimS a.workspace_dir)
    (hpid : p.project_id = trimS a.project_id)
    (hv1 : trimS a.workspace_dir ≠ "")
    (hv2 : trimS a.project_id ≠ "")
    (hv3 : startActorId a ≠ "")
    (hv4 : valid_actor_role (startActorRole a) = true)
    (hv5 : startHost a ≠ "")
    (hv6 : startPort a ≠ 0)
    (hres : resolve_cli_path a.cli_path renv = Except.ok cli) :
    start_manager_web st a renv env = (Except.ok (status_from_managed p), some p, []) := by
  subst hst
  simp only [start_manager_web, hres, halive, hwd, hpid]
  simp [hv1, hv2, hv3, hv4, hv5, hv6]

/-- Witness for C1: a same-target restart with a different host, port
and monitor limit returns the old status and an empty event trace. -/
theorem c1_witness :
    start_manager_web (some procWs1) argsWs1 envCliJs spawnOk
      = (Except.ok (status_from_managed procWs1), some procWs1, []) :=
  c1_start_same_target_noop (some procWs1) argsWs1 envCliJs spawnOk procWs1 "/cli.js"
    rfl rfl rfl rfl (by decide) (by decide) (by decide) (by decide) (by decide)
    (by decide) rfl

/-- C2: the slot holds at most one process by construction, and a valid
Start for a different target than the live recorded worker first
terminates the old worker — `terminate_child` returns only after the
child is confirmed exited — and only then spawns the new one: on
success the event trace is exactly termination of the old pid followed
by the spawn, and the slot holds exactly the new worker; if termination
fails, Start surfaces the error and no spawn event occurs. -/
theorem c2_start_handover_terminates_before_spawn
    (st : Option ManagedProcess) (a : StartManagerWebArgs) (renv : ResolveEnv)
    (env : SpawnEnv) (p : ManagedProcess) (cli : String) (npid : Nat) (e : String)
    (hst : st = some p)
    (halive : env.tryWait = TryWaitR.running)
    (hdiff : ¬ (p.workspace_dir = trimS a.workspace_dir ∧ p.project_id = trimS a.project_id))
    (hv1 : trimS a.workspace_dir ≠ "")
    (hv2 : trimS a.project_id ≠ "")
    (hv3 : startActorId a ≠ "")
    (hv4 : valid_actor_role (startActorRole a) = true)
    (hv5 : startHost a ≠ "")
    (hv6 : startPort a ≠ 0)
    (hres : resolve_cli_path a.cli_path renv = Except.ok cli) :
    (start_manager_web st a renv env).2.1.toList.length ≤ 1
    ∧ (terminate_child env.term = Except.ok () → env.spawn = Except.ok npid →
        start_manager_web st a renv env =
          (Except.ok (status_from_managed
              ⟨npid, "http://" ++ startHost a ++ ":" ++ toString (startPort a),
               trimS a.workspace_dir, trimS a.project_id⟩),
           some ⟨npid, "http://" ++ startHost a ++ ":" ++ toString (startPort a),
               trimS a.workspace_dir, trimS a.project_id⟩,
           [Event.terminated p.child, Event.spawned npid (start_command_args cli a)]))
    ∧ (terminate_child env.term = Except.error e →
        start_manager_web st a renv env = (Except.error e, some p, [])) := by
  subst hst
  refine ⟨?_, ?_, ?_⟩
  · cases h : (start_manager_web (some p) a renv env).2.1 <;> simp
  · intro hterm hspawn
    simp only [start_manager_web, hres, halive, hterm, hspawn, start_manager_web.startSpawn]
    simp [hv1, hv2, hv3, hv4, hv5, hv6, hdiff]
  · intro hterm
    simp only [start_manager_web, hres, halive, hterm]
    simp [hv1, hv2, hv3, hv4, hv5, hv6, hdiff]

/-- Witness for C2: starting target `(/ws, p2)` over the live worker for
`(/ws, p1)` terminates pid 42 and then spawns pid 43, leaving exactly
the new worker recorded. -/
theorem c2_witness :
    start_manager_web (some procWs1) argsWs2 envCliJs spawnOk
      = (Except.ok (status_from_managed
            ⟨43, "http://127.0.0.1:8787", "/ws", "p2"⟩),
         some ⟨43, "http://127.0.0.1:8787", "/ws", "p2"⟩,
         [Event.terminated 42,
          Event.spawned 43 (start_command_args "/cli.js" argsWs2)]) :=
  (c2_start_handover_terminates_before_spawn (some procWs1) argsWs2 envCliJs spawnOk
      procWs1 "/cli.js" 43 "unused"
      rfl rfl (by decide) (by decide) (by decide) (by decide) (by decide) (by decide)
      (by decide) rfl).2.1 rfl rfl

/-! ## C3: Role validation -/

/-- Fixture: a start request whose actor role is `"Manager"`, which is
in the allowed set after trimming and lower-casing but not after
trimming alone. -/
def argsRoleCase : StartManagerWebArgs :=
  ⟨"/ws", "p1", none, some "Manager", none, none, none, none, none, none,
   none, none, none, some "/cli.js"⟩

/-- Fixture: a constant one-shot oracle: success with stdout `id-1`. -/
def runOk1 : Invocation → RunResult := fun _ => ⟨true, "id-1", ""⟩

/-- Fixture: an onboarding request with role `"Worker"` and a team name
but no team id. -/
def argsOnb : OnboardAgentArgs :=
  ⟨"/ws", "Alice", "Worker", "openai", none, some "Eng", none, some "/cli.js"⟩

/-- Counterexample to C3 as stated: `"Manager"` is in the allowed actor
set after trimming and lower-casing, so the claim says StartWorker
accepts it, but `start_manager_web` only trims (it never lower-cases
`actorRole`) and rejects the request with the role validation error. -/
theorem c3_counterexample :
    valid_actor_role (lowerS (trimS "Manager")) = true
    ∧ (start_manager_web none argsRoleCase envCliJs spawnOk).1
        = Except.error "actor_role must be one of: human, ceo, director, manager, worker" :=
  ⟨by decide, rfl⟩

/-- C3 (amended): StartWorker's `actorRole` is accepted exactly when it
is in `{human, ceo, director, manager, worker}` after trimming only (no
lower-casing), and OnboardAgent's `role` is accepted exactly when it is
in `{ceo, director, manager, worker}` after trimming and lower-casing;
each rejection is a validation error listing the allowed set (the error
literals below).  Acceptance is phrased as not returning the role
validation error, in runs where every other ingredient succeeds. -/
theorem c3_role_validation_amended
    (a : StartManagerWebArgs) (renv : ResolveEnv) (env : SpawnEnv) (cli : String)
    (b : OnboardAgentArgs) (renvB : ResolveEnv) (run : Invocation → RunResult)
    (cliB : String) (npid : Nat)
    (hv1 : trimS a.workspace_dir ≠ "")
    (hv2 : trimS a.project_id ≠ "")
    (hv3 : startActorId a ≠ "")
    (hv5 : startHost a ≠ "")
    (hv6 : startPort a ≠ 0)
    (hres : resolve_cli_path a.cli_path renv = Except.ok cli)
    (hspawn : env.spawn = Except.ok npid)
    (hb1 : trimS b.workspace_dir ≠ "")
    (hb2 : trimS b.name ≠ "")
    (hb3 : trimS b.provider ≠ "")
    (hbres : resolve_cli_path b.cli_path renvB = Except.ok cliB)
    (hbrun : ∀ inv, (run inv).success = true ∧ trimS (run inv).stdout ≠ "") :
    ((start_manager_web none a renv env).1
        = Except.error "actor_role must be one of: human, ceo, director, manager, worker"
      ↔ valid_actor_role (startActorRole a) = false)
    ∧ ((onboard_agent b renvB run).1
        = Except.error "role must be one of: ceo, director, manager, worker"
      ↔ valid_agent_role (lowerS (trimS b.role)) = false) := by
  constructor
  · by_cases hv : valid_actor_role (startActorRole a) = true
    · simp only [start_manager_web, hres, hspawn, start_manager_web.startSpawn]
      simp [hv1, hv2, hv3, hv, hv5, hv6]
    · have hv' : valid_actor_role (startActorRole a) = false := by
        cases h : valid_actor_role (startActorRole a) with
        | true => exact absurd h hv
        | false => rfl
      simp [start_manager_web, hv1, hv2, hv3, hv', hv5, hv6]
  · by_cases hv : valid_agent_role (lowerS (trimS b.role)) = true
    · simp only [onboard_agent, hbres]
      cases htn : b.team_name with
      | none =>
        simp [hb1, hb2, hb3, hv, hbrun, parse_cli_text_output]
      | some tn =>
        by_cases hge : lowerS (trimS b.role) ≠ "ceo" ∧ onboardTeamId b = none
        · by_cases hte : trimS tn = ""
          · simp [hb1, hb2, hb3, hv, hge, hte, hbrun, parse_cli_text_output]
          · simp [hb1, hb2, hb3, hv, hge, hte, hbrun, parse_cli_text_output,
              (hbrun ⟨resolve_node_bin b.node_bin renvB,
                [cliB, "team:new", trimS b.workspace_dir, "--name", trimS tn]⟩).1]
        · simp [hb1, hb2, hb3, hv, hge, hbrun, parse_cli_text_output]
    · have hv' : valid_agent_role (lowerS (trimS b.role)) = false := by
        cases h : valid_agent_role (lowerS (trimS b.role)) with
        | true => exact absurd h hv
        | false => rfl
      simp [onboard_agent, hb1, hb2, hv', hbrun]

/-- Witness for C3 (amended), at the concrete requests `argsWs1`
(actor role defaulted to `manager`, accepted) and `argsOnb` (role
`"Worker"`, accepted after trimming and lower-casing). -/
theorem c3_witness :
    ((start_manager_web none argsWs1 envCliJs spawnOk).1
        = Except.error "actor_role must be one of: human, ceo, director, manager, worker"
      ↔ valid_actor_role (startActorRole argsWs1) = false)
    ∧ ((onboard_agent argsOnb envCliJs runOk1).1
        = Except.error "role must be one of: ceo, director, manager, worker"
      ↔ valid_agent_role (lowerS (trimS argsOnb.role)) = false) := by
  have hne : trimS "id-1" ≠ "" := by decide
  exact c3_role_validation_amended argsWs1 envCliJs spawnOk "/cli.js" argsOnb envCliJs
    runOk1 "/cli.js" 43
    (by decide) (by decide) (by decide) (by decide) (by decide) rfl rfl
    (by decide) (by decide) (by decide) rfl (fun _ => ⟨rfl, hne⟩)

/-! ## C4: Entrypoint resolution priority and discovery sweep -/

/-- The `out`/`seen` invariant of the candidate fold: skipping
already-seen candidates never changes which candidate is found first. -/
lemma find?_foldl_dedupStep (p : FsPath → Bool) :
    ∀ (l out seen : List FsPath), (∀ x, x ∈ out ↔ x ∈ seen) →
      ((l.foldl dedupStep (out, seen)).1).find? p = (out ++ l).find? p := by
  intro l
  induction l with
  | nil => intro out seen _; simp
  | cons c cs ih =>
    intro out seen hmem
    by_cases hc : c ∈ seen
    · have hstep : dedupStep (out, seen) c = (out, seen) := by
        simp [dedupStep, hc]
      rw [List.foldl_cons, hstep, ih out seen hmem]
      have hco : c ∈ out := (hmem c).mpr hc
      rcases hfo : out.find? p with _ | y
      · have hpc : ¬ p c := by
          have := List.find?_eq_none.mp hfo
          exact fun hp => this c hco hp
        rw [List.find?_append, List.find?_append, hfo]
        simp [List.find?_cons_of_neg _ hpc]
      · rw [List.find?_append, List.find?_append, hfo]
        rfl
    · have hstep : dedupStep (out, seen) c = (out ++ [c], c :: seen) := by
        simp [dedupStep, hc]
      rw [List.foldl_cons, hstep,
        ih (out ++ [c]) (c :: seen) (by intro x; simp [hmem x, or_comm])]
      congr 1
      simp

/-- The candidate fold emits each candidate at most once. -/
lemma nodup_foldl_dedupStep :
    ∀ (l out seen : List FsPath), out.Nodup → (∀ x ∈ out, x ∈ seen) →
      ((l.foldl dedupStep (out, seen)).1).Nodup := by
  intro l
  induction l with
  | nil => intro out seen hnd _; simpa using hnd
  | cons c cs ih =>
    intro out seen hnd hsub
    by_cases hc : c ∈ seen
    · have hstep : dedupStep (out, seen) c = (out, seen) := by
        simp [dedupStep, hc]
      rw [List.foldl_cons, hstep]
      exact ih out seen hnd hsub
    · have hstep : dedupStep (out, seen) c = (out ++ [c], c :: seen) := by
        simp [dedupStep, hc]
      rw [List.foldl_cons, hstep]
      refine ih (out ++ [c]) (c :: seen) ?_ ?_
      · have hco : c ∉ out := fun h => hc (hsub c h)
        simp [List.nodup_append, hnd, hco]
      · intro x hx
        rcases List.mem_append.mp hx with hx | hx
        · exact List.mem_cons_of_mem _ (hsub x hx)
        · simp at hx
          simp [hx]

/-- The discovery sweep as the spec words it: the `dist/cli.js`
candidates of up to 8 ancestor levels starting from the current working
directory, followed by those of up to 8 ancestor levels starting from
the host executable's directory, in discovery order (before
de-duplication). -/
def spec_discovery_candidates (env : ResolveEnv) : List FsPath :=
  (match env.cwd with
   | some cwd => (cwd.ancestors.take 8).map joinDistCli
   | none => [])
  ++ (match env.exeDir with
      | some dir => (dir.ancestors.take 8).map joinDistCli
      | none => [])

/-- `discover_cli_candidates` is the de-duplicating fold over the
spec-side candidate list. -/
lemma discover_eq_foldl (env : ResolveEnv) :
    discover_cli_candidates env
      = ((spec_discovery_candidates env).foldl dedupStep ([], [])).1 := by
  cases hc : env.cwd <;> cases he : env.exeDir <;>
    simp [discover_cli_candidates, push_candidates, spec_discovery_candidates,
      hc, he, List.foldl_append]

/-- Counterexample to C4 as stated: a caller-supplied override that is
empty after trimming does not make resolution proceed to the
environment variable.  Here the variable names the existing file
`/good`, so the claimed fall-through would succeed, but the explicit
branch fails terminally naming the (empty) trimmed path. -/
theorem c4_counterexample :
    resolve_cli_path (some "   ") ⟨none, some "/good", none, none, fun s => s = "/good"⟩
        = Except.error "CLI path does not exist: "
    ∧ resolve_cli_path none ⟨none, some "/good", none, none, fun s => s = "/good"⟩
        = Except.ok "/good" :=
  ⟨rfl, rfl⟩

/-- C4 (amended): entrypoint resolution priority, with the explicit
override terminal whenever supplied (even when empty after trimming):
a supplied override resolves to its trimmed path if that is a file and
otherwise fails naming that path; otherwise the environment variable is
likewise terminal; otherwise the discovery sweep returns the first
existing candidate among the `dist/cli.js` candidates of up to 8
ancestor levels from the working directory and from the executable's
directory, in discovery order; and if none exists resolution fails with
the error naming `dist/cli.js` and `AGENTCOMPANY_CLI_PATH`.  The
discovered candidate list itself is duplicate-free. -/
theorem c4_resolver_priority_amended (env : ResolveEnv) (raw : String) :
    (resolve_cli_path (some raw) env =
       if env.isFile (trimS raw) then Except.ok (trimS raw)
       else Except.error ("CLI path does not exist: " ++ trimS raw))
    ∧ (resolve_cli_path none env =
       match env.envCliPath with
       | some raw2 =>
         if env.isFile (trimS raw2) then Except.ok (trimS raw2)
         else Except.error ("AGENTCOMPANY_CLI_PATH is set but does not exist: " ++ trimS raw2)
       | none =>
         match (spec_discovery_candidates env).find? (fun c => env.isFile c.render) with
         | some c => Except.ok c.render
         | none =>
           Except.error
             "Unable to find dist/cli.js. Run `pnpm build` and/or set AGENTCOMPANY_CLI_PATH to the absolute dist/cli.js path.")
    ∧ (discover_cli_candidates env).Nodup := by
  refine ⟨rfl, ?_, ?_⟩
  · cases henv : env.envCliPath with
    | some raw2 => simp [resolve_cli_path, henv]
    | none =>
      have hfind :
          (discover_cli_candidates env).find? (fun c => env.isFile c.render)
            = (spec_discovery_candidates env).find? (fun c => env.isFile c.render) := by
        rw [discover_eq_foldl]
        simpa using
          find?_foldl_dedupStep (fun c => env.isFile c.render)
            (spec_discovery_candidates env) [] [] (by simp)
      simp only [resolve_cli_path, henv, hfind]
  · rw [discover_eq_foldl]
    exact nodup_foldl_dedupStep (spec_discovery_candidates env) [] []
      List.nodup_nil (by simp)

/-! ## C5: Dependent two-step onboarding -/

/-- Fixture: an onboarding request with role `"ceo"`, no team id, and a
non-empty team name. -/
def argsOnbCeo : OnboardAgentArgs :=
  ⟨"/ws", "Alice", "ceo", "openai", none, some "Eng", none, some "/cli.js"⟩

/-- Counterexample to C5 as stated: with role `"ceo"`, `teamId` absent
and `teamName` `"Eng"` non-empty after trimming, no team-creation
sub-invocation is issued at all — the trace is exactly one `agent:new`
invocation and the result reports `created_team = false` — because
`onboard_agent` guards the two-step path by `role != "ceo"`. -/
theorem c5_counterexample :
    onboardTeamId argsOnbCeo = none
    ∧ trimS "Eng" ≠ ""
    ∧ (onboard_agent argsOnbCeo envCliJs runOk1).2
        = [⟨"node", ["/cli.js", "agent:new", "/ws", "--name", "Alice", "--role", "ceo",
            "--provider", "openai"]⟩]
    ∧ (onboard_agent argsOnbCeo envCliJs runOk1).1
        = Except.ok ⟨"/ws", "id-1", "Alice", "ceo", "openai", none, false⟩ :=
  ⟨by decide, by decide, rfl, rfl⟩

/-- C5 (amended): whenever OnboardAgent is called with a role other than
`ceo` (after trimming and lower-casing), `teamId` absent or empty after
trimming, and `teamName` non-empty after trimming, the synchronous
`team:new` sub-invocation is issued first; if it fails, OnboardAgent
fails with the team-onboarding error and the `agent:new` invocation is
never attempted; if it succeeds with non-empty output, its trimmed
plain-text result is folded into the `agent:new` arguments as the
`--team` value. -/
theorem c5_two_step_onboarding_amended
    (b : OnboardAgentArgs) (renv : ResolveEnv) (run : Invocation → RunResult)
    (cli : String) (tn : String)
    (hb1 : trimS b.workspace_dir ≠ "")
    (hb2 : trimS b.name ≠ "")
    (hvrole : valid_agent_role (lowerS (trimS b.role)) = true)
    (hnotceo : lowerS (trimS b.role) ≠ "ceo")
    (hb3 : trimS b.provider ≠ "")
    (hres : resolve_cli_path b.cli_path renv = Except.ok cli)
    (htid : onboardTeamId b = none)
    (htn : b.team_name = some tn)
    (htne : trimS tn ≠ "") :
    (onboard_agent b renv run).2.head?
        = some ⟨resolve_node_bin b.node_bin renv,
            [cli, "team:new", trimS b.workspace_dir, "--name", trimS tn]⟩
    ∧ ((run ⟨resolve_node_bin b.node_bin renv,
            [cli, "team:new", trimS b.workspace_dir, "--name", trimS tn]⟩).success = false →
        onboard_agent b renv run
          = (Except.error ("Team onboarding failed: "
              ++ failDetail (run ⟨resolve_node_bin b.node_bin renv,
                  [cli, "team:new", trimS b.workspace_dir, "--name", trimS tn]⟩)),
             [⟨resolve_node_bin b.node_bin renv,
               [cli, "team:new", trimS b.workspace_dir, "--name", trimS tn]⟩]))
    ∧ ((run ⟨resolve_node_bin b.node_bin renv,
            [cli, "team:new", trimS b.workspace_dir, "--name", trimS tn]⟩).success = true →
       trimS (run ⟨resolve_node_bin b.node_bin renv,
            [cli, "team:new", trimS b.workspace_dir, "--name", trimS tn]⟩).stdout ≠ "" →
        (onboard_agent b renv run).2
          = [⟨resolve_node_bin b.node_bin renv,
              [cli, "team:new", trimS b.workspace_dir, "--name", trimS tn]⟩,
             ⟨resolve_node_bin b.node_bin renv,
              [cli, "agent:new", trimS b.workspace_dir, "--name", trimS b.name,
               "--role", lowerS (trimS b.role), "--provider", trimS b.provider,
               "--team", trimS (run ⟨resolve_node_bin b.node_bin renv,
                 [cli, "team:new", trimS b.workspace_dir, "--name", trimS tn]⟩).stdout]⟩]) := by
  refine ⟨?_, ?_, ?_⟩
  · simp only [onboard_agent, hres]
    by_cases hsucc : (run ⟨resolve_node_bin b.node_bin renv,
        [cli, "team:new", trimS b.workspace_dir, "--name", trimS tn]⟩).success = true
    · by_cases hout : trimS (run ⟨resolve_node_bin b.node_bin renv,
          [cli, "team:new", trimS b.workspace_dir, "--name", trimS tn]⟩).stdout = ""
      · simp [hb1, hb2, hb3, hvrole, hnotceo, htid, htn, htne, hsucc, hout,
          parse_cli_text_output]
      · simp only [hb1, hb2, hb3, hvrole, hnotceo, htid, htn, htne, hsucc, hout,
          parse_cli_text_output]
        simp [hb1, hb2, hb3, hvrole, hnotceo, htid, htn, htne, hsucc, hout]
        split <;> (try split) <;> simp
    · simp [hb1, hb2, hb3, hvrole, hnotceo, htid, htn, htne, hsucc,
        parse_cli_text_output]
  · intro hfail
    simp only [onboard_agent, hres]
    simp [hb1, hb2, hb3, hvrole, hnotceo, htid, htn, htne, hfail]
  · intro hsucc hout
    simp only [onboard_agent, hres]
    simp only [hb1, hb2, hb3, hvrole, hnotceo, htid, htn, htne, hsucc, hout,
      parse_cli_text_output]
    simp [hb1, hb2, hb3, hvrole, hnotceo, htid, htn, htne, hsucc, hout]
    split <;> (try split) <;> simp

/-- Fixture: a one-shot oracle failing exactly on `team:new` with stderr
`boom`, succeeding elsewhere. -/
def runTeamFail : Invocation → RunResult := fun inv =>
  if inv.args.get? 1 = some "team:new" then ⟨false, "", "boom"⟩ else ⟨true, "id-1", ""⟩

/-- Witness for C5 (amended): with role `"Worker"`, no team id and team
name `"Eng"`, the `team:new` sub-invocation is issued first, and when it
exits nonzero OnboardAgent fails with its stderr detail and the trace
shows no `agent:new` invocation was attempted. -/
theorem c5_witness :
    (onboard_agent argsOnb envCliJs runTeamFail).2.head?
        = some ⟨"node", ["/cli.js", "team:new", "/ws", "--name", "Eng"]⟩
    ∧ onboard_agent argsOnb envCliJs runTeamFail
        = (Except.error "Team onboarding failed: boom",
           [⟨"node", ["/cli.js", "team:new", "/ws", "--name", "Eng"]⟩]) := by
  have h := c5_two_step_onboarding_amended argsOnb envCliJs runTeamFail "/cli.js" "Eng"
    (by decide) (by decide) (by decide) (by decide) (by decide) rfl rfl rfl (by decide)
  exact ⟨h.1, h.2.1 rfl⟩

/-! ## C10: No team creation for ceo onboarding -/

/-- C10: when OnboardAgent's role is `ceo` after trimming and
lower-casing, the `team:new` sub-invocation is never issued even with
`teamId` absent and `teamName` non-empty: the trace is exactly one
`agent:new` invocation whose `--team` value can only come from an
explicit `teamId`; on success the result reports `created_team = false`
and `team_id` equal to the normalized explicit `teamId`; and with no
explicit `teamId` the invocation carries no `--team` argument at all. -/
theorem c10_ceo_skips_team_creation
    (b : OnboardAgentArgs) (renv : ResolveEnv) (run : Invocation → RunResult)
    (cli : String)
    (hb1 : trimS b.workspace_dir ≠ "")
    (hb2 : trimS b.name ≠ "")
    (hceo : lowerS (trimS b.role) = "ceo")
    (hb3 : trimS b.provider ≠ "")
    (hres : resolve_cli_path b.cli_path renv = Except.ok cli) :
    (onboard_agent b renv run).2
        = [⟨resolve_node_bin b.node_bin renv,
            [cli, "agent:new", trimS b.workspace_dir, "--name", trimS b.name,
             "--role", lowerS (trimS b.role), "--provider", trimS b.provider]
            ++ (match onboardTeamId b with
                | some team => ["--team", team]
                | none => [])⟩]
    ∧ ((run ⟨resolve_node_bin b.node_bin renv,
            [cli, "agent:new", trimS b.workspace_dir, "--name", trimS b.name,
             "--role", lowerS (trimS b.role), "--provider", trimS b.provider]
            ++ (match onboardTeamId b with
                | some team => ["--team", team]
                | none => [])⟩).success = true →
       trimS (run ⟨resolve_node_bin b.node_bin renv,
            [cli, "agent:new", trimS b.workspace_dir, "--name", trimS b.name,
             "--role", lowerS (trimS b.role), "--provider", trimS b.provider]
            ++ (match onboardTeamId b with
                | some team => ["--team", team]
                | none => [])⟩).stdout ≠ "" →
        (onboard_agent b renv run).1
          = Except.ok
              { workspace_dir := trimS b.workspace_dir
                agent_id := trimS (run ⟨resolve_node_bin b.node_bin renv,
                  [cli, "agent:new", trimS b.workspace_dir, "--name", trimS b.name,
                   "--role", lowerS (trimS b.role), "--provider", trimS b.provider]
                  ++ (match onboardTeamId b with
                      | some team => ["--team", team]
                      | none => [])⟩).stdout
                name := trimS b.name
                role := lowerS (trimS b.role)
                provider := trimS b.provider
                team_id := onboardTeamId b
                created_team := false })
    ∧ (onboardTeamId b = none →
        (onboard_agent b renv run).2
          = [⟨resolve_node_bin b.node_bin renv,
              [cli, "agent:new", trimS b.workspace_dir, "--name", trimS b.name,
               "--role", lowerS (trimS b.role), "--provider", trimS b.provider]⟩]) := by
  have hvrole : valid_agent_role (lowerS (trimS b.role)) = true := by
    rw [hceo]; decide
  refine ⟨?_, ?_, ?_⟩
  · simp only [onboard_agent, hres]
    simp [hb1, hb2, hb3, hvrole, hceo, valid_agent_role]
    split <;> (try split) <;> simp_all [parse_cli_text_output]
  · intro hs ho
    simp only [hceo] at hs ho
    simp only [onboard_agent, hres]
    simp [hb1, hb2, hb3, hvrole, hceo, valid_agent_role]
    split <;> (try split) <;> simp_all [parse_cli_text_output]
  · intro htid
    simp only [onboard_agent, hres]
    simp [hb1, hb2, hb3, hvrole, hceo, valid_agent_role, htid]
    split <;> (try split) <;> simp_all [parse_cli_text_output]

/-- Witness for C10: onboarding a ceo with team name `"Eng"` and no team
id issues exactly one `agent:new` invocation without `--team` and
reports `created_team = false`, `team_id = none`. -/
theorem c10_witness :
    (onboard_agent argsOnbCeo envCliJs runOk1).2
        = [⟨"node", ["/cli.js", "agent:new", "/ws", "--name", "Alice", "--role", "ceo",
            "--provider", "openai"]⟩]
    ∧ (onboard_agent argsOnbCeo envCliJs runOk1).1
        = Except.ok
            { workspace_dir := "/ws", agent_id := "id-1", name := "Alice",
              role := "ceo", provider := "openai", team_id := none,
              created_team := false } := by
  have h := c10_ceo_skips_team_creation argsOnbCeo envCliJs runOk1 "/cli.js"
    (by decide) (by decide) (by decide) (by decide) rfl
  have hne : trimS (runOk1 ⟨"node",
      ["/cli.js", "agent:new", "/ws", "--name", "Alice", "--role", "ceo",
       "--provider", "openai"]⟩).stdout ≠ "" := by decide
  exact ⟨h.2.2 rfl, h.2.1 rfl hne⟩

/-! ## C8/C9: Flag emission in the command builders -/

/-- An `optStringFlag` segment never contains a string that is neither
the flag nor a possible trimmed value. -/
lemma not_mem_optStringFlag (x flag : String) (f : Option String)
    (hx : x ≠ flag) (hv : ∀ v, f = some v → x ≠ trimS v) :
    x ∉ optStringFlag flag f := by
  cases f with
  | none => simp [optStringFlag]
  | some v =>
    by_cases h : trimS v = "" <;> simp [optStringFlag, h, hx, hv v rfl]

/-- A conditional one-flag segment never contains a different string. -/
lemma not_mem_flag_ite (c : Prop) [Decidable c] (x y : String) (h : x ≠ y) :
    x ∉ (if c then [y] else []) := by
  by_cases hc : c <;> simp [hc, h]

/-- The departments segment never contains a string that is neither the
`--departments` flag nor a normalized department. -/
lemma not_mem_departments_part (x : String) (b : BootstrapWorkspaceArgs)
    (hx : x ≠ "--departments")
    (hd : ∀ d ∈ normalize_departments b.departments, d ≠ x) :
    x ∉ (if normalize_departments b.departments = [] then []
         else "--departments" :: normalize_departments b.departments) := by
  by_cases h : normalize_departments b.departments = []
  · simp [h]
  · rw [if_neg h]
    intro hmem
    rcases List.mem_cons.mp hmem with h1 | h1
    · exact absurd h1 hx
    · exact absurd rfl (Ne.symm (hd _ h1))

/-- C8: each opt-out boolean (`syncIndex` in StartWorker, `includeCeo`
and `includeDirector` in BootstrapWorkspace) emits its negating flag in
the built argument vector exactly when the field is explicitly `false`;
unset or explicitly `true` emits nothing.  The hypotheses only exclude
degenerate requests whose free-form string fields literally equal the
flag tokens. -/
theorem c8_optout_flags
    (cli cli2 : String) (a : StartManagerWebArgs) (b : BootstrapWorkspaceArgs)
    (h1 : cli ≠ "--no-sync-index")
    (h2 : trimS a.workspace_dir ≠ "--no-sync-index")
    (h3 : trimS a.project_id ≠ "--no-sync-index")
    (h4 : startActorId a ≠ "--no-sync-index")
    (h5 : startActorRole a ≠ "--no-sync-index")
    (h6 : startHost a ≠ "--no-sync-index")
    (h7 : ∀ t, a.actor_team_id = some t → trimS t ≠ "--no-sync-index")
    (g1 : cli2 ≠ "--no-ceo" ∧ cli2 ≠ "--no-director")
    (g2 : trimS b.workspace_dir ≠ "--no-ceo" ∧ trimS b.workspace_dir ≠ "--no-director")
    (g3 : ∀ v, b.company_name = some v → trimS v ≠ "--no-ceo" ∧ trimS v ≠ "--no-director")
    (g4 : ∀ v, b.project_name = some v → trimS v ≠ "--no-ceo" ∧ trimS v ≠ "--no-director")
    (g5 : ∀ d ∈ normalize_departments b.departments, d ≠ "--no-ceo" ∧ d ≠ "--no-director") :
    ("--no-sync-index" ∈ start_command_args cli a ↔ a.sync_index = some false)
    ∧ ("--no-ceo" ∈ bootstrap_command_args cli2 b ↔ b.include_ceo = some false)
    ∧ ("--no-director" ∈ bootstrap_command_args cli2 b ↔ b.include_director = some false) := by
  have hp1 : ("--no-sync-index" : String) ≠ toString (startPort a) :=
    fun h => natToString_ne_of_dash (startPort a) _ (by decide) h.symm
  have hp2 : ("--no-sync-index" : String) ≠ toString (a.monitor_limit.getD 200) :=
    fun h => natToString_ne_of_dash _ _ (by decide) h.symm
  have hp3 : ("--no-sync-index" : String) ≠ toString (a.pending_limit.getD 200) :=
    fun h => natToString_ne_of_dash _ _ (by decide) h.symm
  have hp4 : ("--no-sync-index" : String) ≠ toString (a.decisions_limit.getD 200) :=
    fun h => natToString_ne_of_dash _ _ (by decide) h.symm
  refine ⟨?_, ?_, ?_⟩
  · rcases hteam : a.actor_team_id with _ | t
    · by_cases hr : a.refresh_index.getD false <;>
      by_cases hsy : a.sync_index = some false <;>
        simp [start_command_args, hteam, hr, hsy, Ne.symm h1, Ne.symm h2, Ne.symm h3,
          Ne.symm h4, Ne.symm h5, Ne.symm h6, hp1, hp2, hp3, hp4]
    · have ht := Ne.symm (h7 t hteam)
      by_cases hte : trimS t = "" <;>
      by_cases hr : a.refresh_index.getD false <;>
      by_cases hsy : a.sync_index = some false <;>
        simp [start_command_args, hteam, hte, hr, hsy, Ne.symm h1, Ne.symm h2, Ne.symm h3,
          Ne.symm h4, Ne.symm h5, Ne.symm h6, hp1, hp2, hp3, hp4, ht]
  · have hn1 := not_mem_optStringFlag "--no-ceo" "--name" b.company_name (by decide)
      (fun v hv => Ne.symm (g3 v hv).1)
    have hn2 := not_mem_optStringFlag "--no-ceo" "--project-name" b.project_name (by decide)
      (fun v hv => Ne.symm (g4 v hv).1)
    have hnd := not_mem_departments_part "--no-ceo" b (by decide) (fun d hd => (g5 d hd).1)
    by_cases hceo : b.include_ceo = some false <;>
    by_cases hdir : b.include_director = some false <;>
    by_cases hf : b.force.getD false <;>
      simp [bootstrap_command_args, hceo, hdir, hf, Ne.symm g1.1, Ne.symm g2.1, hn1, hn2,
        hnd]
  · have hn1 := not_mem_optStringFlag "--no-director" "--name" b.company_name (by decide)
      (fun v hv => Ne.symm (g3 v hv).2)
    have hn2 := not_mem_optStringFlag "--no-director" "--project-name" b.project_name (by decide)
      (fun v hv => Ne.symm (g4 v hv).2)
    have hnd := not_mem_departments_part "--no-director" b (by decide) (fun d hd => (g5 d hd).2)
    by_cases hceo : b.include_ceo = some false <;>
    by_cases hdir : b.include_director = some false <;>
    by_cases hf : b.force.getD false <;>
      simp [bootstrap_command_args, hceo, hdir, hf, Ne.symm g1.2, Ne.symm g2.2, hn1, hn2,
        hnd]

/-- Fixture: a start request with `syncIndex` explicitly `false`. -/
def argsC8 : StartManagerWebArgs :=
  ⟨"/ws", "p1", none, none, none, none, none, none, none, none,
   none, some false, none, some "/cli.js"⟩

/-- Fixture: a bootstrap request with `includeCeo` explicitly `false`
and `includeDirector` explicitly `true`. -/
def argsB8 : BootstrapWorkspaceArgs :=
  ⟨"/ws", some "Acme", none, some [" Eng ", " "], some false, some true, none,
   none, some "/cli.js"⟩

/-- Witness for C8 at concrete requests: `syncIndex = false` emits
`--no-sync-index`, `includeCeo = false` emits `--no-ceo`, and
`includeDirector = true` does not emit `--no-director`. -/
theorem c8_witness :
    ("--no-sync-index" ∈ start_command_args "/cli.js" argsC8
      ↔ argsC8.sync_index = some false)
    ∧ ("--no-ceo" ∈ bootstrap_command_args "/cli.js" argsB8
      ↔ argsB8.include_ceo = some false)
    ∧ ("--no-director" ∈ bootstrap_command_args "/cli.js" argsB8
      ↔ argsB8.include_director = some false) := by
  exact c8_optout_flags "/cli.js" "/cli.js" argsC8 argsB8
    (by decide) (by decide) (by decide) (by decide) (by decide) (by decide)
    (fun t ht => Option.noConfusion ht)
    (by decide) (by decide)
    (by intro v hv; cases hv; decide)
    (fun v hv => Option.noConfusion hv)
    (by decide)

/-- C9: departments are normalized by trimming each entry and dropping
empties; the `--departments` flag appears in the bootstrap argument
vector exactly when the normalized list is non-empty, in which case the
flag is immediately followed by the normalized values; an absent list or
one containing only whitespace entries normalizes to empty and so emits
nothing.  The hypotheses only exclude requests whose free-form string
fields literally equal the flag token. -/
theorem c9_departments_normalization
    (cli : String) (b : BootstrapWorkspaceArgs)
    (h1 : cli ≠ "--departments")
    (h2 : trimS b.workspace_dir ≠ "--departments")
    (h3 : ∀ v, b.company_name = some v → trimS v ≠ "--departments")
    (h4 : ∀ v, b.project_name = some v → trimS v ≠ "--departments") :
    ("--departments" ∈ bootstrap_command_args cli b
      ↔ normalize_departments b.departments ≠ [])
    ∧ (normalize_departments b.departments ≠ [] →
        ∃ l1 l2, bootstrap_command_args cli b
          = l1 ++ "--departments" :: (normalize_departments b.departments ++ l2))
    ∧ (∀ l, (∀ d ∈ l, trimS d = "") → normalize_departments (some l) = [])
    ∧ normalize_departments none = [] := by
  have hn1 := not_mem_optStringFlag "--departments" "--name" b.company_name (by decide)
    (fun v hv => Ne.symm (h3 v hv))
  have hn2 := not_mem_optStringFlag "--departments" "--project-name" b.project_name (by decide)
    (fun v hv => Ne.symm (h4 v hv))
  have hc1 := not_mem_flag_ite (b.include_ceo = some false) "--departments" "--no-ceo" (by decide)
  have hc2 := not_mem_flag_ite (b.include_director = some false) "--departments" "--no-director"
    (by decide)
  have hc3 := not_mem_flag_ite (b.force.getD false = true) "--departments" "--force" (by decide)
  refine ⟨?_, ?_, ?_, rfl⟩
  · by_cases hnd : normalize_departments b.departments = [] <;>
      simp [bootstrap_command_args, hnd, Ne.symm h1, Ne.symm h2, hn1, hn2, hc1, hc2, hc3]
  · intro hnd
    refine ⟨[cli, "workspace:bootstrap", trimS b.workspace_dir]
        ++ optStringFlag "--name" b.company_name
        ++ optStringFlag "--project-name" b.project_name,
      (if b.include_ceo = some false then ["--no-ceo"] else [])
        ++ (if b.include_director = some false then ["--no-director"] else [])
        ++ (if b.force.getD false then ["--force"] else []), ?_⟩
    simp [bootstrap_command_args, hnd, List.append_assoc]
  · intro l hl
    simp only [normalize_departments, Option.getD]
    rw [List.filter_eq_nil_iff]
    intro x hx
    rcases List.mem_map.mp hx with ⟨d, hd, rfl⟩
    simp [hl d hd]

/-- Fixture: a bootstrap request whose departments are all whitespace. -/
def argsB9 : BootstrapWorkspaceArgs :=
  ⟨"/ws", none, none, some ["  ", " "], none, none, none, none, some "/cli.js"⟩

/-- Witness for C9 at a concrete request whose departments list contains
only whitespace entries: no `--departments` argument is emitted. -/
theorem c9_witness :
    ("--departments" ∈ bootstrap_command_args "/cli.js" argsB9
      ↔ normalize_departments argsB9.departments ≠ [])
    ∧ (normalize_departments argsB9.departments ≠ [] →
        ∃ l1 l2, bootstrap_command_args "/cli.js" argsB9
          = l1 ++ "--departments" :: (normalize_departments argsB9.departments ++ l2))
    ∧ (∀ l, (∀ d ∈ l, trimS d = "") → normalize_departments (some l) = [])
    ∧ normalize_departments none = [] := by
  exact c9_departments_normalization "/cli.js" argsB9
    (by decide) (by decide)
    (fun v hv => Option.noConfusion hv)
    (fun v hv => Option.noConfusion hv)

end AgentCompany
